import Mathlib

/-!
Shallow embedding of the SafeComm guardrail web application
(Next.js API relay routes, chat send path, demo auth tokens, and
the client audio streaming/playback pipeline), together with proofs
of the behavioural properties claimed for it.

Sources embedded (file names refer to the repository):
* `frontend/src/app/api/analyze-message/route.ts` (503-on-failure revision)
  and its fallback revision (same route, revision returning the fixed
  SAFE fallback object on upstream failure).
* `frontend/src/app/api/preview-message/route.ts` (both revisions: the
  simple forwarding one and the two-call merge one).
* `frontend/src/app/api/audio-analysis/route.ts` (`GET`).
* `frontend/src/lib/auth.ts` (demo users and demo tokens).
* `frontend/src/components/audio/AudioAnalysis.tsx`
  (`playAudioChunk` scheduling, PCM16 encode/decode, `onclose`).
* `frontend/src/components/chat/ChatRoom.tsx`
  (`connectWebSocket.onclose`, `handleSendMessage`).
* the Firebase chat library (`sendMessage`, `updateMessageAnalysis`).

JSON payload subtrees whose internal structure the program never
inspects are represented by `String`; machine floats of the audio path
are represented by `ℚ`; fallible calls are represented by explicit
outcome types.
-/

namespace SafeComm

/-- The three risk levels of an `AnalysisResult`
(`'SAFE' | 'WARNING' | 'DANGER'` in the TypeScript sources). -/
inductive RiskLevel
  | SAFE
  | WARNING
  | DANGER
deriving DecidableEq, Repr

/-- `detailed_analysis` as the preview merge route inspects it: the only
field the code reads is the optional `risk_indicators` array
(`analysisResult?.detailed_analysis?.risk_indicators?.length > 0`);
each indicator is an opaque JSON object, kept as a `String`.
The empty object `{}` is `⟨none⟩`. -/
structure DetailedAnalysis where
  risk_indicators : Option (List String)
deriving DecidableEq, Repr

/-- `AnalysisResult`: the JSON shape relayed by the analyze/preview routes
(`risk_level`, `confidence`, `detected_issues`, `suggestions`,
`flagged_content`, `processing_time_ms`, `compliance_notes`,
`detailed_analysis`). `compliance_notes` is optional because the merge
route writes `policyResult?.explanation`, which is absent when the policy
call failed. -/
structure AnalysisResult where
  risk_level : RiskLevel
  confidence : ℚ
  detected_issues : List String
  suggestions : List String
  flagged_content : List String
  processing_time_ms : ℕ
  compliance_notes : Option String
  detailed_analysis : DetailedAnalysis
deriving DecidableEq, Repr

/-- The identity extracted from a verified Firebase ID token: the route
code reads `decodedToken.email` (possibly absent) and `decodedToken.uid`. -/
structure Identity where
  email : Option String
  uid : String
deriving DecidableEq, Repr

/-- An incoming request to an analyze/preview API route, as far as the
route reads it: the `authorization` header (absent or a string) and the
`user_id` and `message` fields of the JSON body. -/
structure RelayRequest where
  authHeader : Option String
  body_user_id : String
  message : String
deriving DecidableEq, Repr

/-- Body of an API response: either the error object `{error: msg}` or a
success payload of type `β`. -/
inductive ApiBody (β : Type)
  | err (msg : String)
  | payload (b : β)
deriving DecidableEq, Repr

/-- An API route response: HTTP status, body, and whether the route
executed its upstream `fetch` before responding (used to state the
"no upstream call is made" properties). -/
structure ApiResponse (β : Type) where
  status : ℕ
  body : ApiBody β
  upstreamCalled : Bool
deriving DecidableEq, Repr

/-- Outcome of one upstream `fetch`: a 2xx response carrying a parsed
payload, a non-2xx response (`response.ok` false), or a rejected promise
(network error). -/
inductive FetchOutcome (α : Type)
  | ok (payload : α)
  | httpErr
  | netErr
deriving DecidableEq, Repr

/-- JS `s.startsWith(pre)`, computed on the character sequence. -/
def jsStartsWith (s pre : String) : Bool :=
  pre.toList.isPrefixOf s.toList

/-- JS `String.prototype.split` with a non-empty separator, on character
sequences: chunks between consecutive occurrences of the separator.  The
fuel argument only drives the recursion; any fuel ≥ the input length gives
the exact JS result. -/
def jsSplitChars (sep : List Char) : ℕ → List Char → List (List Char)
  | _, [] => [[]]
  | 0, l => [l]
  | fuel + 1, c :: rest =>
    if sep.isPrefixOf (c :: rest) ∧ sep ≠ [] then
      [] :: jsSplitChars sep fuel ((c :: rest).drop sep.length)
    else
      match jsSplitChars sep fuel rest with
      | [] => [[c]]
      | chunk :: more => (c :: chunk) :: more

/-- JS `s.split(sep)` for a non-empty separator. -/
def jsSplit (s sep : String) : List String :=
  (jsSplitChars sep.toList s.toList.length s.toList).map List.asString

/-- `authHeader.split('Bearer ')[1]`: the token part of the header. -/
def bearerToken (h : String) : String :=
  (jsSplit h "Bearer ").getD 1 ""

/-- `body.user_id !== decodedToken.email && body.user_id !== decodedToken.uid`
is the mismatch test; this is the matching test (its negation).  When
`email` is absent the JS comparison with `undefined` is false, so only
`uid` can match. -/
def userIdMatches (ident : Identity) (u : String) : Bool :=
  ident.email == some u || u == ident.uid

/-- The authentication prelude shared verbatim by the analyze and preview
routes (both revisions): 401 when the `authorization` header is missing or
does not start with `'Bearer '`; 401 when `verifyIdToken` rejects; 403 when
`user_id` matches neither `email` nor `uid`; otherwise the route-specific
handler runs (and only it performs upstream calls).
`verify` is the `adminAuth.verifyIdToken` oracle. -/
def routeWithAuth {β : Type} (verify : String → Option Identity)
    (req : RelayRequest) (handler : Identity → ApiResponse β) :
    ApiResponse β :=
  match req.authHeader with
  | none =>
      { status := 401, body := .err "Unauthorized: Missing or invalid token",
        upstreamCalled := false }
  | some h =>
    if jsStartsWith h "Bearer " then
      match verify (bearerToken h) with
      | none =>
          { status := 401, body := .err "Unauthorized: Invalid token",
            upstreamCalled := false }
      | some ident =>
        if userIdMatches ident req.body_user_id then handler ident
        else
          { status := 403, body := .err "Forbidden: User ID mismatch",
            upstreamCalled := false }
    else
      { status := 401, body := .err "Unauthorized: Missing or invalid token",
        upstreamCalled := false }

/-- `POST /api/analyze-message`, the revision under
`frontend/src/app/api/analyze-message/route.ts`: after authentication it
forwards the body upstream; a non-2xx upstream response yields
`{error: 'Analysis service unavailable'}` with status 503, and a rejected
fetch falls to the outer catch, yielding `{error: 'Internal server error'}`
with status 500; a 2xx response is returned verbatim with status 200. -/
def analyzeRoute (verify : String → Option Identity) (req : RelayRequest)
    (upstream : FetchOutcome AnalysisResult) : ApiResponse AnalysisResult :=
  routeWithAuth verify req fun _ =>
    match upstream with
    | .ok a => { status := 200, body := .payload a, upstreamCalled := true }
    | .httpErr =>
        { status := 503, body := .err "Analysis service unavailable",
          upstreamCalled := true }
    | .netErr =>
        { status := 500, body := .err "Internal server error",
          upstreamCalled := true }

/-- The fixed fallback `AnalysisResult` of the fallback revision of the
analyze route: `risk_level 'SAFE'`, `confidence 0.5`, one canned
suggestion, and a compliance note. -/
def analyzeFallback (suggestion note : String) : AnalysisResult :=
  { risk_level := .SAFE, confidence := 1/2, detected_issues := [],
    suggestions := [suggestion], flagged_content := [],
    processing_time_ms := 0, compliance_notes := some note,
    detailed_analysis := { risk_indicators := none } }

/-- `POST /api/analyze-message`, the fallback revision: a non-2xx upstream
response yields status 200 with the fixed SAFE fallback (suggestion
`"分析サービスが利用できませんでした"`), and a rejected fetch is caught in the
inner catch, yielding status 200 with the fixed SAFE fallback (suggestion
`"バックエンドに接続できませんでした"`); a 2xx response is returned verbatim. -/
def analyzeRouteFallback (verify : String → Option Identity)
    (req : RelayRequest) (upstream : FetchOutcome AnalysisResult) :
    ApiResponse AnalysisResult :=
  routeWithAuth verify req fun _ =>
    match upstream with
    | .ok a => { status := 200, body := .payload a, upstreamCalled := true }
    | .httpErr =>
        { status := 200,
          body := .payload
            (analyzeFallback "分析サービスが利用できませんでした" "分析サービスエラー"),
          upstreamCalled := true }
    | .netErr =>
        { status := 200,
          body := .payload
            (analyzeFallback "バックエンドに接続できませんでした" "接続エラー"),
          upstreamCalled := true }

/-- The preview payload of the simple revision of `POST /api/preview-message`
(`has_warnings`, `has_violations`, warning/violation arrays — opaque JSON
objects kept as strings — and a `suggestion`). -/
structure PreviewSimpleResult where
  has_warnings : Bool
  has_violations : Bool
  preview_warnings : List String
  preview_violations : List String
  suggestion : String
deriving DecidableEq, Repr

/-- `POST /api/preview-message`, simple revision: after authentication it
forwards the body to the upstream preview endpoint; any failure (non-2xx
or rejected fetch) yields status 200 with the fixed
`{has_warnings: false, has_violations: false, …}` fallback. -/
def previewSimpleRoute (verify : String → Option Identity)
    (req : RelayRequest) (upstream : FetchOutcome PreviewSimpleResult) :
    ApiResponse PreviewSimpleResult :=
  routeWithAuth verify req fun _ =>
    match upstream with
    | .ok r => { status := 200, body := .payload r, upstreamCalled := true }
    | .httpErr =>
        { status := 200,
          body := .payload
            { has_warnings := false, has_violations := false,
              preview_warnings := [], preview_violations := [],
              suggestion := "メッセージを送信できます" },
          upstreamCalled := true }
    | .netErr =>
        { status := 200,
          body := .payload
            { has_warnings := false, has_violations := false,
              preview_warnings := [], preview_violations := [],
              suggestion := "メッセージを送信できます" },
          upstreamCalled := true }

/-- The policy-check payload as the merge revision of the preview route
reads it: `violation_detected`, `confidence_score`, `explanation`,
`suggestions`, `keywords_detected`. -/
structure PolicyResult where
  violation_detected : Bool
  confidence_score : ℚ
  explanation : String
  suggestions : List String
  keywords_detected : List String
deriving DecidableEq, Repr

/-- The analysis payload as the merge revision reads it: only
`detailed_analysis` (possibly absent) is inspected. -/
structure UpstreamAnalysis where
  detailed_analysis : Option DetailedAnalysis
deriving DecidableEq, Repr

/-- Outcome of the `Promise.all` fan-out of the merge revision: either the
join rejected (some fetch threw), or both responses arrived, each carrying
its parsed body when 2xx (`policyResponse.ok` / `analysisResponse.ok`)
and nothing otherwise. -/
inductive PreviewUpstream
  | joinFailed
  | responded (policy : Option PolicyResult) (analysis : Option UpstreamAnalysis)
deriving DecidableEq, Repr

/-- `analysisResult?.detailed_analysis?.risk_indicators?.length`, with the
whole optional chain collapsing to an empty list (JS: `undefined > 0` is
false). -/
def riskIndicatorCount (analysis : Option UpstreamAnalysis) : ℕ :=
  (((analysis.bind UpstreamAnalysis.detailed_analysis).bind
      DetailedAnalysis.risk_indicators).getD []).length

/-- The merged `structuredResponse` the merge revision builds from the two
(possibly absent) upstream payloads:
`risk_level` is `DANGER` when `policyResult?.violation_detected`, else
`WARNING` when the analysis has at least one risk indicator, else `SAFE`;
`confidence` is `policyResult?.confidence_score || 0.85` (JS falsiness:
an absent policy result or a score of `0` gives `0.85`);
the remaining policy-derived fields collapse to empty/absent when the
policy call failed, and `detailed_analysis` collapses to `{}` when the
analysis call failed. -/
def mergedPreview (policy : Option PolicyResult)
    (analysis : Option UpstreamAnalysis) : AnalysisResult :=
  { risk_level :=
      if (policy.map PolicyResult.violation_detected).getD false then .DANGER
      else if 0 < riskIndicatorCount analysis then .WARNING
      else .SAFE,
    confidence :=
      match policy with
      | some p => if p.confidence_score = 0 then 85/100 else p.confidence_score
      | none => 85/100,
    detected_issues :=
      match policy with
      | some p => if p.violation_detected then [p.explanation] else []
      | none => [],
    suggestions := (policy.map PolicyResult.suggestions).getD [],
    flagged_content := (policy.map PolicyResult.keywords_detected).getD [],
    processing_time_ms := 100,
    compliance_notes := policy.map PolicyResult.explanation,
    detailed_analysis :=
      (analysis.bind UpstreamAnalysis.detailed_analysis).getD
        { risk_indicators := none } }

/-- `POST /api/preview-message`, merge revision: after authentication it
issues the policy-check and analysis calls in parallel; if the join
rejects, the catch returns status 200 with the fixed SAFE fallback;
otherwise it returns status 200 with the merged structured response. -/
def previewMergeRoute (verify : String → Option Identity)
    (req : RelayRequest) (upstream : PreviewUpstream) :
    ApiResponse AnalysisResult :=
  routeWithAuth verify req fun _ =>
    match upstream with
    | .joinFailed =>
        { status := 200,
          body := .payload
            (analyzeFallback "バックエンドエラーのため分析できませんでした"
              "分析サービスが利用できません"),
          upstreamCalled := true }
    | .responded p a =>
        { status := 200, body := .payload (mergedPreview p a),
          upstreamCalled := true }

/-- `session_config` of `GET /api/audio-analysis`. -/
structure SessionConfig where
  sample_rate : ℕ
  chunk_size : ℕ
  audio_format : String
deriving DecidableEq, Repr

/-- Success body of `GET /api/audio-analysis`: `websocket_url` is
`process.env.BACKEND_WS_URL` (possibly unset), plus the fixed session
config and `backend_status: 'online'`. -/
structure AudioAnalysisOkBody where
  websocket_url : Option String
  session_config : SessionConfig
  backend_status : String
deriving DecidableEq, Repr

/-- Outcome of the `/health` check fetch: a response with `ok` true, a
response with `ok` false, or a rejected fetch. -/
inductive HealthOutcome
  | ok
  | httpErr
  | netErr
deriving DecidableEq, Repr

/-- `GET /api/audio-analysis`: when the health response is non-2xx it
returns 503 with `{error: 'Backend service is not available', …}`; when the
fetch rejects, the catch returns 503 with
`{error: 'Failed to connect to backend service', …}`; otherwise it returns
200 with the WebSocket configuration body. -/
def audioAnalysisGET (wsUrl : Option String) (health : HealthOutcome) :
    ApiResponse AudioAnalysisOkBody :=
  match health with
  | .httpErr =>
      { status := 503, body := .err "Backend service is not available",
        upstreamCalled := true }
  | .netErr =>
      { status := 503, body := .err "Failed to connect to backend service",
        upstreamCalled := true }
  | .ok =>
      { status := 200,
        body := .payload
          { websocket_url := wsUrl,
            session_config :=
              { sample_rate := 16000, chunk_size := 4096,
                audio_format := "pcm" },
            backend_status := "online" },
        upstreamCalled := true }

/-! ### WebSocket close handlers (C2) -/

/-- `wsRef.current.onclose` of `ChatRoom.connectWebSocket`: when the close
code is not 1000 (and the signed-in `user` captured by the handler is
still present) it schedules exactly one `setTimeout(connectWebSocket, 3000)`;
otherwise it schedules nothing.  The result is the list of scheduled
reconnect delays in milliseconds. -/
def chatRoomOnClose (userPresent : Bool) (code : ℕ) : List ℕ :=
  if code ≠ 1000 ∧ userPresent then [3000] else []

/-- The client connection state of `AudioAnalysis`
(`{isConnected, isConnecting, error}`). -/
structure ConnectionState where
  isConnected : Bool
  isConnecting : Bool
  error : Option String
deriving DecidableEq, Repr

/-- `ws.onclose` of `AudioAnalysis.connectWebSocket`: it logs, resets the
connection state to `{isConnected: false, isConnecting: false, error: null}`
and schedules no reconnect, whatever the close code is.  The second
component is the list of scheduled reconnect delays (always empty). -/
def audioOnClose (_code : ℕ) : ConnectionState × List ℕ :=
  ({ isConnected := false, isConnecting := false, error := none }, [])

/-! ### Audio playback scheduling (C3) -/

/-- One incoming audio chunk as `playAudioChunk` sees it: the decoded frame
count (`audioData.length / 2`) and the value of `audioContext.currentTime`
observed when the chunk is scheduled. -/
structure AudioChunk where
  currentTime : ℚ
  numberOfFrames : ℕ
deriving DecidableEq, Repr

/-- `duration = numberOfFrames / sampleRate` with `sampleRate = 24000`. -/
def chunkDuration (c : AudioChunk) : ℚ :=
  (c.numberOfFrames : ℚ) / 24000

/-- The scheduling loop of `playAudioChunk` over a sequence of chunks,
carrying the `nextStartTimeRef` cursor: each chunk starts at
`max(currentTime, nextStartTime)` and the cursor advances to
`startTime + duration`; the result lists each chunk's
`(startTime, duration)`. -/
def scheduleChunks : ℚ → List AudioChunk → List (ℚ × ℚ)
  | _, [] => []
  | cursor, c :: rest =>
    let start := max c.currentTime cursor
    (start, chunkDuration c) :: scheduleChunks (start + chunkDuration c) rest

/-- Adjacent well-formedness of a `(startTime, duration)` schedule: each
start time is ≥ the previous start time, and ≥ the previous chunk's end
(start + duration). -/
def wellScheduled : List (ℚ × ℚ) → Prop
  | [] => True
  | [_] => True
  | a :: b :: rest => (a.1 ≤ b.1 ∧ a.1 + a.2 ≤ b.1) ∧ wellScheduled (b :: rest)

/-! ### Chat send path and message store (C8) -/

/-- A chat message document as stored (`content`, sender fields, `roomId`,
and the optional `analysis` payload; the remaining metadata fields play no
role in the claims). -/
structure StoredMessage where
  content : String
  senderId : String
  roomId : String
  analysis : Option AnalysisResult
deriving DecidableEq, Repr

/-- The message document store, keyed by document id (newest write first,
as lookups read the latest write). -/
def Store : Type := List (String × StoredMessage)

/-- Write a document (newest-first). -/
def storeSet (s : Store) (id : String) (m : StoredMessage) : Store :=
  (id, m) :: s

/-- Read a document back. -/
def storeGet (s : Store) (id : String) : Option StoredMessage :=
  (s.find? (fun p => p.1 == id)).map Prod.snd

/-- An operation of the chat send path against the store. -/
inductive ChatOp
  | send (id : String) (m : StoredMessage)
  | setAnalysis (id : String) (a : AnalysisResult)
deriving DecidableEq, Repr

/-- `sendMessage` (Firebase lib): `addDoc` of a message document; the
document is created without any `analysis` field. -/
def sendMessage (s : Store) (id content senderId roomId : String) : Store :=
  storeSet s id
    { content := content, senderId := senderId, roomId := roomId,
      analysis := none }

/-- `updateMessageAnalysis` (Firebase lib): `setDoc(messageRef, {analysis},
{merge: true})` — it overwrites only the `analysis` field of the stored
document (creating a bare document when none exists). -/
def updateMessageAnalysis (s : Store) (id : String) (a : AnalysisResult) :
    Store :=
  match storeGet s id with
  | some m => storeSet s id { m with analysis := some a }
  | none =>
      storeSet s id
        { content := "", senderId := "", roomId := "", analysis := some a }

/-- Apply one chat operation to the store. -/
def applyOp (s : Store) : ChatOp → Store
  | .send id m => storeSet s id m
  | .setAnalysis id a => updateMessageAnalysis s id a

/-- Apply a sequence of chat operations. -/
def applyOps (s : Store) : List ChatOp → Store
  | [] => s
  | op :: rest => applyOps (applyOp s op) rest

/-- The operations `ChatRoom.handleSendMessage` performs for one message:
`sendMessage` first; then, only when the analyze request returned 2xx with
a payload `a`, a single `updateMessageAnalysis` with `a`; on a non-2xx
response or a thrown error, nothing more. -/
def sendPathOps (id content senderId roomId : String)
    (analysisOutcome : Option AnalysisResult) : List ChatOp :=
  .send id
    { content := content, senderId := senderId, roomId := roomId,
      analysis := none }
    :: (match analysisOutcome with
        | some a => [.setAnalysis id a]
        | none => [])

/-- Number of `analysis` writes in an operation sequence. -/
def analysisWrites (ops : List ChatOp) : ℕ :=
  (ops.filter fun op =>
    match op with
    | .setAnalysis _ _ => true
    | _ => false).length

/-! ### Demo auth tokens (C9) -/

/-- A demo user of `frontend/src/lib/auth.ts`. -/
structure DemoUser where
  id : String
  name : String
  email : String
  department : String
  role : String
  avatar : Option String
deriving DecidableEq, Repr

def demoUser1 : DemoUser :=
  { id := "user1", name := "田中 太郎", email := "tanaka@company.com",
    department := "営業部", role := "manager", avatar := some "👨‍💼" }

def demoUser2 : DemoUser :=
  { id := "user2", name := "佐藤 花子", email := "sato@company.com",
    department := "開発部", role := "developer", avatar := some "👩‍💻" }

def demoUser3 : DemoUser :=
  { id := "user3", name := "山田 次郎", email := "yamada@company.com",
    department := "人事部", role := "hr", avatar := some "👨‍💼" }

def demoUser4 : DemoUser :=
  { id := "user4", name := "鈴木 美咲", email := "suzuki@company.com",
    department := "マーケティング部", role := "marketing", avatar := some "👩‍🎨" }

/-- `DEMO_USERS` of `frontend/src/lib/auth.ts`. -/
def DEMO_USERS : List DemoUser :=
  [demoUser1, demoUser2, demoUser3, demoUser4]

/-- The object serialized into a demo token (`user_id`, profile fields and
the expiry timestamp `exp = Date.now() + 24*60*60*1000`, in ms). -/
structure TokenData where
  user_id : String
  name : String
  email : String
  department : String
  role : String
  exp : ℤ
deriving DecidableEq, Repr

/-- A candidate token string: either `btoa(JSON.stringify(d))` for some
token data `d`, or any string on which `JSON.parse(atob(·))` throws
(not well-formed base64-encoded JSON). -/
inductive TokenStr
  | encoded (d : TokenData)
  | malformed
deriving DecidableEq, Repr

/-- Does a string contain only characters representable in one byte
(code point ≤ U+00FF)?  JS `btoa` succeeds exactly on such inputs and
throws `InvalidCharacterError` otherwise. -/
def latin1 (s : String) : Bool :=
  s.toList.all fun c => c.toNat ≤ 255

/-- Whether `btoa(JSON.stringify(d))` succeeds.  `JSON.stringify` emits
the five string fields raw (it escapes only quote, backslash and control
characters, all with ASCII escapes); the keys, punctuation and the
numeric `exp` are ASCII.  So the serialized JSON contains a character
above U+00FF — making `btoa` throw — iff one of the string fields
does. -/
def btoaOk (d : TokenData) : Bool :=
  latin1 d.user_id && latin1 d.name && latin1 d.email &&
    latin1 d.department && latin1 d.role

/-- `btoa(JSON.stringify(·))`: the encoded token when `btoa` succeeds,
`none` when `btoa` throws `InvalidCharacterError` (some character of the
serialized token data is above U+00FF). -/
def btoaJson (d : TokenData) : Option TokenStr :=
  if btoaOk d then some (.encoded d) else none

/-- `JSON.parse(atob(·))`, with the surrounding try/catch turning a parse
failure into `null`. -/
def atobJson : TokenStr → Option TokenData
  | .encoded d => some d
  | .malformed => none

/-- `generateDemoToken`: serializes the user's fields with
`exp = now + 24*60*60*1000` and base64-encodes the JSON.  The function
has no error handling of its own, so it throws (`none`) whenever `btoa`
does. -/
def generateDemoToken (now : ℤ) (u : DemoUser) : Option TokenStr :=
  btoaJson
    { user_id := u.id, name := u.name, email := u.email,
      department := u.department, role := u.role,
      exp := now + 24 * 60 * 60 * 1000 }

/-- `validateDemoToken`: parses the token (null on failure), rejects it
when `tokenData.exp < Date.now()`, and otherwise returns the `DEMO_USERS`
entry whose `id` equals `tokenData.user_id` (null when none). -/
def validateDemoToken (now : ℤ) (t : TokenStr) : Option DemoUser :=
  match atobJson t with
  | none => none
  | some d =>
    if d.exp < now then none
    else
      match DEMO_USERS.find? (fun u => u.id == d.user_id) with
      | some u => some u
      | none => none

/-! ### PCM16 encode/decode (C10) -/

/-- The microphone encoder of `setupAudioStreaming`:
`pcm16[i] = Math.max(-1, Math.min(1, inputData[i])) * 0x7FFF`. -/
def pcm16Encode (x : ℚ) : ℚ :=
  max (-1) (min 1 x) * 32767

/-- The playback decoder of `playAudioChunk`:
`channelData[i] = sample16 / 32768.0` for an Int16 `sample16`. -/
def pcm16Decode (s : ℤ) : ℚ :=
  (s : ℚ) / 32768

/-! ## Helper lemmas -/

/-- Extending a schedule on the left preserves well-formedness when the
head is compatible with the next entry. -/
theorem wellScheduled_cons {a : ℚ × ℚ} {l : List (ℚ × ℚ)}
    (h1 : ∀ b ∈ l.head?, a.1 ≤ b.1 ∧ a.1 + a.2 ≤ b.1)
    (h2 : wellScheduled l) : wellScheduled (a :: l) := by
  cases l with
  | nil => exact trivial
  | cons b rest => exact ⟨h1 b rfl, h2⟩

/-- Every start time produced by `scheduleChunks` is at least the initial
cursor value. -/
theorem scheduleChunks_head_ge (l : List AudioChunk) (cursor : ℚ) :
    ∀ b ∈ (scheduleChunks cursor l).head?, cursor ≤ b.1 := by
  cases l with
  | nil => intro b hb; simp [scheduleChunks] at hb
  | cons c rest =>
    intro b hb
    simp only [scheduleChunks, List.head?_cons, Option.mem_def,
      Option.some.injEq] at hb
    rw [← hb]
    exact le_max_right _ _

/-- Chunk durations are nonnegative (`numberOfFrames / 24000` with a
natural frame count). -/
theorem chunkDuration_nonneg (c : AudioChunk) : 0 ≤ chunkDuration c := by
  unfold chunkDuration
  positivity

/-- When the auth prelude rejects (missing/ill-formed header or failed
verification), the route answers 401 without calling upstream. -/
theorem routeWithAuth_unauthenticated {β : Type}
    (verify : String → Option Identity) (req : RelayRequest)
    (handler : Identity → ApiResponse β)
    (h : ∀ hdr, req.authHeader = some hdr →
      jsStartsWith hdr "Bearer " = false ∨ verify (bearerToken hdr) = none) :
    (routeWithAuth verify req handler).status = 401 ∧
    (routeWithAuth verify req handler).upstreamCalled = false := by
  obtain ⟨ah, u, m⟩ := req
  cases ah with
  | none => exact ⟨rfl, rfl⟩
  | some hdr =>
    dsimp only [routeWithAuth]
    rcases h hdr rfl with h1 | h1
    · rw [if_neg (by simp [h1])]
      exact ⟨rfl, rfl⟩
    · by_cases hs : jsStartsWith hdr "Bearer " = true
      · rw [if_pos hs, h1]
        exact ⟨rfl, rfl⟩
      · rw [if_neg hs]
        exact ⟨rfl, rfl⟩

/-- When the auth prelude finds a user-id mismatch, the route answers 403
without calling upstream. -/
theorem routeWithAuth_mismatch {β : Type}
    (verify : String → Option Identity) (req : RelayRequest)
    (handler : Identity → ApiResponse β) (hdr : String) (ident : Identity)
    (hh : req.authHeader = some hdr) (hs : jsStartsWith hdr "Bearer " = true)
    (hv : verify (bearerToken hdr) = some ident)
    (hm : userIdMatches ident req.body_user_id = false) :
    (routeWithAuth verify req handler).status = 403 ∧
    (routeWithAuth verify req handler).upstreamCalled = false := by
  obtain ⟨ah, u, m⟩ := req
  dsimp only at hh hm
  subst hh
  dsimp only [routeWithAuth]
  rw [if_pos hs]
  simp only [hv]
  rw [if_neg (by simp [hm])]
  exact ⟨rfl, rfl⟩

/-- When the auth prelude succeeds, the route is exactly its handler. -/
theorem routeWithAuth_authorized (verify : String → Option Identity)
    (req : RelayRequest) (hdr : String) (ident : Identity)
    (hh : req.authHeader = some hdr) (hs : jsStartsWith hdr "Bearer " = true)
    (hv : verify (bearerToken hdr) = some ident)
    (hm : userIdMatches ident req.body_user_id = true)
    {β : Type} (handler : Identity → ApiResponse β) :
    routeWithAuth verify req handler = handler ident := by
  obtain ⟨ah, u, m⟩ := req
  dsimp only at hh hm
  subst hh
  dsimp only [routeWithAuth]
  rw [if_pos hs]
  simp only [hv]
  rw [if_pos hm]

/-- Reading back the key just written returns the value written. -/
theorem storeGet_storeSet (s : Store) (id : String) (m : StoredMessage) :
    storeGet (storeSet s id m) id = some m := by
  unfold storeGet storeSet
  rw [List.find?_cons_of_pos _ (by simp)]
  rfl

/-! ## Claim theorems -/

/-- Claim C3: for every sequence of incoming audio chunks, the playback
scheduler of `playAudioChunk` — which starts each chunk at
`max(currentTime, nextStartTime)` and advances the cursor to
`startTime + duration` — assigns start times that are non-decreasing, and
each chunk's start time is at least the previous chunk's end
(start + duration). -/
theorem audio_chunk_scheduling (chunks : List AudioChunk) (cursor : ℚ) :
    wellScheduled (scheduleChunks cursor chunks) := by
  induction chunks generalizing cursor with
  | nil => exact trivial
  | cons c rest ih =>
    have hdur : 0 ≤ chunkDuration c := chunkDuration_nonneg c
    simp only [scheduleChunks]
    refine wellScheduled_cons ?_ (ih _)
    intro b hb
    have h := scheduleChunks_head_ge rest
      (max c.currentTime cursor + chunkDuration c) b hb
    exact ⟨by linarith, h⟩

/-- Claim C10: the microphone encoder clamps each sample to `[-1, 1]`
before scaling by `0x7FFF`, so every encoded value lies in
`[-32767, 32767]`; and the playback decoder maps every Int16 sample `s`
to `s / 32768`, so every decoded sample lies in `[-1, 1)`. -/
theorem pcm16_ranges :
    (∀ x : ℚ, -32767 ≤ pcm16Encode x ∧ pcm16Encode x ≤ 32767) ∧
    (∀ s : ℤ, -32768 ≤ s → s < 32768 →
      -1 ≤ pcm16Decode s ∧ pcm16Decode s < 1) := by
  constructor
  · intro x
    have h1 : (-1 : ℚ) ≤ max (-1) (min 1 x) := le_max_left _ _
    have h2 : max (-1) (min 1 x) ≤ 1 := max_le (by norm_num) (min_le_left _ _)
    unfold pcm16Encode
    constructor <;> nlinarith
  · intro s hlo hhi
    have hlo' : (-32768 : ℚ) ≤ (s : ℚ) := by exact_mod_cast hlo
    have hhi' : (s : ℚ) < 32768 := by exact_mod_cast hhi
    unfold pcm16Decode
    constructor
    · rw [le_div_iff₀ (by norm_num : (0 : ℚ) < 32768)]
      linarith
    · rw [div_lt_iff₀ (by norm_num : (0 : ℚ) < 32768)]
      linarith

/-- Witness for C10 at the concrete Int16 sample 16384. -/
theorem pcm16_ranges_witness :
    ((-32768 : ℤ) ≤ 16384 ∧ (16384 : ℤ) < 32768) ∧
    (-1 ≤ pcm16Decode 16384 ∧ pcm16Decode 16384 < 1) :=
  ⟨by decide, pcm16_ranges.2 16384 (by decide) (by decide)⟩

/-- Claim C2 is false as stated: on the audio connection
(`AudioAnalysis.connectWebSocket`), a non-clean close (code 1006) schedules
zero reconnect attempts, not exactly one. -/
theorem audio_close_counterexample :
    (audioOnClose 1006).2 = [] ∧ ((audioOnClose 1006).2).length ≠ 1 := by
  exact ⟨rfl, by decide⟩

/-- Claim C2 (amended): on the chat analysis connection
(`ChatRoom.connectWebSocket`, whose close handler runs with the signed-in
user captured), a close with code ≠ 1000 schedules exactly one reconnect
attempt with the fixed 3000 ms delay and a close with code 1000 schedules
none; on the audio connection (`AudioAnalysis.connectWebSocket`), every
close schedules zero reconnect attempts. -/
theorem websocket_close_reconnects (code : ℕ) :
    (code ≠ 1000 → chatRoomOnClose true code = [3000]) ∧
    chatRoomOnClose true 1000 = [] ∧
    (audioOnClose code).2 = [] := by
  refine ⟨fun h => ?_, ?_, rfl⟩
  · simp [chatRoomOnClose, h]
  · simp [chatRoomOnClose]

/-- Witness for the amended C2 at close code 1006. -/
theorem websocket_close_reconnects_witness :
    (1006 : ℕ) ≠ 1000 ∧ chatRoomOnClose true 1006 = [3000] :=
  ⟨by decide, (websocket_close_reconnects 1006).1 (by decide)⟩

/-- Claim C7: `GET /api/audio-analysis` answers 503 whenever the health
check fails (non-2xx response or rejected fetch), and otherwise answers
200 with `websocket_url`, a `session_config` of sample rate 16000, chunk
size 4096, audio format `'pcm'`, and `backend_status 'online'`. -/
theorem audio_analysis_get (wsUrl : Option String) (health : HealthOutcome) :
    (health ≠ .ok → (audioAnalysisGET wsUrl health).status = 503) ∧
    (health = .ok →
      (audioAnalysisGET wsUrl health).status = 200 ∧
      (audioAnalysisGET wsUrl health).body = .payload
        { websocket_url := wsUrl,
          session_config :=
            { sample_rate := 16000, chunk_size := 4096,
              audio_format := "pcm" },
          backend_status := "online" }) := by
  cases health <;> simp [audioAnalysisGET]

/-- Witness for C7 at a healthy upstream and an unset `BACKEND_WS_URL`. -/
theorem audio_analysis_get_witness :
    HealthOutcome.ok = HealthOutcome.ok ∧
    ((audioAnalysisGET none HealthOutcome.ok).status = 200 ∧
      (audioAnalysisGET none HealthOutcome.ok).body = .payload
        { websocket_url := none,
          session_config :=
            { sample_rate := 16000, chunk_size := 4096,
              audio_format := "pcm" },
          backend_status := "online" }) :=
  ⟨rfl, (audio_analysis_get none HealthOutcome.ok).2 rfl⟩

/-- Claim C5: every request to an analyze/preview route whose
`authorization` header is missing, does not start with `'Bearer '`, or
carries a token failing verification is answered 401 and no upstream
fetch is executed, in all four route revisions. -/
theorem unauthenticated_rejected (verify : String → Option Identity)
    (req : RelayRequest) (u1 u2 : FetchOutcome AnalysisResult)
    (u3 : FetchOutcome PreviewSimpleResult) (u4 : PreviewUpstream)
    (h : ∀ hdr, req.authHeader = some hdr →
      jsStartsWith hdr "Bearer " = false ∨ verify (bearerToken hdr) = none) :
    ((analyzeRoute verify req u1).status = 401 ∧
      (analyzeRoute verify req u1).upstreamCalled = false) ∧
    ((analyzeRouteFallback verify req u2).status = 401 ∧
      (analyzeRouteFallback verify req u2).upstreamCalled = false) ∧
    ((previewSimpleRoute verify req u3).status = 401 ∧
      (previewSimpleRoute verify req u3).upstreamCalled = false) ∧
    ((previewMergeRoute verify req u4).status = 401 ∧
      (previewMergeRoute verify req u4).upstreamCalled = false) :=
  ⟨routeWithAuth_unauthenticated verify req _ h,
   routeWithAuth_unauthenticated verify req _ h,
   routeWithAuth_unauthenticated verify req _ h,
   routeWithAuth_unauthenticated verify req _ h⟩

/-- A request with no `authorization` header at all. -/
def reqNoAuth : RelayRequest :=
  { authHeader := none, body_user_id := "user1", message := "hello" }

/-- A token verifier that rejects every token. -/
def verifyNone : String → Option Identity := fun _ => none

/-- Witness for C5 on a concrete header-less request. -/
theorem unauthenticated_rejected_witness :
    ((analyzeRoute verifyNone reqNoAuth .httpErr).status = 401 ∧
      (analyzeRoute verifyNone reqNoAuth .httpErr).upstreamCalled = false) ∧
    ((analyzeRouteFallback verifyNone reqNoAuth .httpErr).status = 401 ∧
      (analyzeRouteFallback verifyNone reqNoAuth .httpErr).upstreamCalled
        = false) ∧
    ((previewSimpleRoute verifyNone reqNoAuth .httpErr).status = 401 ∧
      (previewSimpleRoute verifyNone reqNoAuth .httpErr).upstreamCalled
        = false) ∧
    ((previewMergeRoute verifyNone reqNoAuth .joinFailed).status = 401 ∧
      (previewMergeRoute verifyNone reqNoAuth .joinFailed).upstreamCalled
        = false) :=
  unauthenticated_rejected verifyNone reqNoAuth .httpErr .httpErr .httpErr
    .joinFailed (fun _ hcontra => nomatch hcontra)

/-- Claim C6: every request to an analyze/preview route carrying a
verified token whose body `user_id` differs from both the verified
identity's email and its uid is answered 403 and no upstream fetch is
executed, in all four route revisions. -/
theorem user_mismatch_rejected (verify : String → Option Identity)
    (req : RelayRequest) (hdr : String) (ident : Identity)
    (u1 u2 : FetchOutcome AnalysisResult)
    (u3 : FetchOutcome PreviewSimpleResult) (u4 : PreviewUpstream)
    (hh : req.authHeader = some hdr) (hs : jsStartsWith hdr "Bearer " = true)
    (hv : verify (bearerToken hdr) = some ident)
    (hne : ∀ e, ident.email = some e → req.body_user_id ≠ e)
    (hnu : req.body_user_id ≠ ident.uid) :
    ((analyzeRoute verify req u1).status = 403 ∧
      (analyzeRoute verify req u1).upstreamCalled = false) ∧
    ((analyzeRouteFallback verify req u2).status = 403 ∧
      (analyzeRouteFallback verify req u2).upstreamCalled = false) ∧
    ((previewSimpleRoute verify req u3).status = 403 ∧
      (previewSimpleRoute verify req u3).upstreamCalled = false) ∧
    ((previewMergeRoute verify req u4).status = 403 ∧
      (previewMergeRoute verify req u4).upstreamCalled = false) := by
  have hm : userIdMatches ident req.body_user_id = false := by
    unfold userIdMatches
    cases he : ident.email with
    | none => simp [hnu]
    | some e =>
      have : e ≠ req.body_user_id := fun hc => (hne e he) hc.symm
      simp [hnu, this]
  exact
    ⟨routeWithAuth_mismatch verify req _ hdr ident hh hs hv hm,
     routeWithAuth_mismatch verify req _ hdr ident hh hs hv hm,
     routeWithAuth_mismatch verify req _ hdr ident hh hs hv hm,
     routeWithAuth_mismatch verify req _ hdr ident hh hs hv hm⟩

/-- The identity a concrete verifier attaches to the token
`"valid-token"`. -/
def ident0 : Identity :=
  { email := some "tanaka@company.com", uid := "demo-uid-1" }

/-- A concrete verifier accepting exactly the token `"valid-token"`. -/
def verify0 : String → Option Identity :=
  fun t => if t = "valid-token" then some ident0 else none

/-- A concrete authenticated request whose `user_id` matches `ident0`. -/
def req0 : RelayRequest :=
  { authHeader := some "Bearer valid-token", body_user_id := "demo-uid-1",
    message := "売上データを送ります" }

/-- A concrete authenticated request whose `user_id` matches neither the
email nor the uid of `ident0`. -/
def reqMismatch : RelayRequest :=
  { authHeader := some "Bearer valid-token", body_user_id := "someone-else",
    message := "hello" }

/-- Witness for C6 on a concrete mismatching request. -/
theorem user_mismatch_rejected_witness :
    ((analyzeRoute verify0 reqMismatch .httpErr).status = 403 ∧
      (analyzeRoute verify0 reqMismatch .httpErr).upstreamCalled = false) ∧
    ((analyzeRouteFallback verify0 reqMismatch .httpErr).status = 403 ∧
      (analyzeRouteFallback verify0 reqMismatch .httpErr).upstreamCalled
        = false) ∧
    ((previewSimpleRoute verify0 reqMismatch .httpErr).status = 403 ∧
      (previewSimpleRoute verify0 reqMismatch .httpErr).upstreamCalled
        = false) ∧
    ((previewMergeRoute verify0 reqMismatch .joinFailed).status = 403 ∧
      (previewMergeRoute verify0 reqMismatch .joinFailed).upstreamCalled
        = false) :=
  user_mismatch_rejected verify0 reqMismatch "Bearer valid-token" ident0
    .httpErr .httpErr .httpErr .joinFailed rfl (by decide) rfl
    (by intro e he hc
        simp only [ident0, Option.some.injEq] at he
        rw [← he] at hc
        exact absurd hc (by decide))
    (by decide)

/-- Claim C4: for every authenticated preview request in the merge
revision where both upstream calls return, the response is 200 with the
merged object; its `risk_level` is `DANGER` when the policy result reports
a violation, else `WARNING` when the analysis result carries at least one
risk indicator, else `SAFE`; and a non-2xx upstream call contributes no
fields to the merged object (its policy-derived fields are empty/absent,
resp. its `detailed_analysis` is the empty object) instead of raising an
error. -/
theorem preview_merge_semantics (verify : String → Option Identity)
    (req : RelayRequest) (hdr : String) (ident : Identity)
    (p : Option PolicyResult) (a : Option UpstreamAnalysis)
    (hh : req.authHeader = some hdr)
    (hs : jsStartsWith hdr "Bearer " = true)
    (hv : verify (bearerToken hdr) = some ident)
    (hm : userIdMatches ident req.body_user_id = true) :
    (previewMergeRoute verify req (.responded p a)).status = 200 ∧
    (previewMergeRoute verify req (.responded p a)).body =
      .payload (mergedPreview p a) ∧
    (mergedPreview p a).risk_level =
      (if (p.map PolicyResult.violation_detected).getD false then
        RiskLevel.DANGER
       else if 0 < riskIndicatorCount a then RiskLevel.WARNING
       else RiskLevel.SAFE) ∧
    (p = none →
      (mergedPreview p a).detected_issues = [] ∧
      (mergedPreview p a).suggestions = [] ∧
      (mergedPreview p a).flagged_content = [] ∧
      (mergedPreview p a).compliance_notes = none ∧
      (mergedPreview p a).risk_level ≠ RiskLevel.DANGER) ∧
    (a = none →
      (mergedPreview p a).detailed_analysis = { risk_indicators := none } ∧
      (mergedPreview p a).risk_level ≠ RiskLevel.WARNING) := by
  have hroute : previewMergeRoute verify req (.responded p a) =
      { status := 200, body := .payload (mergedPreview p a),
        upstreamCalled := true } :=
    routeWithAuth_authorized verify req hdr ident hh hs hv hm _
  refine ⟨?_, ?_, ?_, ?_, ?_⟩
  · rw [hroute]
  · rw [hroute]
  · rfl
  · rintro rfl
    refine ⟨rfl, rfl, rfl, rfl, ?_⟩
    by_cases hc : 0 < riskIndicatorCount a <;> simp [mergedPreview, hc]
  · rintro rfl
    refine ⟨rfl, ?_⟩
    by_cases hp : (p.map PolicyResult.violation_detected).getD false = true <;>
      simp [mergedPreview, riskIndicatorCount, hp]

/-- The analysis payload used by the C4 witness: a 2xx analysis response
without `detailed_analysis`. -/
def analysisW : Option UpstreamAnalysis := some { detailed_analysis := none }

/-- Witness for C4: a concrete authenticated request whose policy call
failed (non-2xx) and whose analysis call returned no risk indicators. -/
theorem preview_merge_semantics_witness :
    (previewMergeRoute verify0 req0 (.responded none analysisW)).status
      = 200 ∧
    (previewMergeRoute verify0 req0 (.responded none analysisW)).body =
      .payload (mergedPreview none analysisW) ∧
    (mergedPreview none analysisW).risk_level =
      (if ((none : Option PolicyResult).map
            PolicyResult.violation_detected).getD false then
        RiskLevel.DANGER
       else if 0 < riskIndicatorCount analysisW then RiskLevel.WARNING
       else RiskLevel.SAFE) ∧
    ((none : Option PolicyResult) = none →
      (mergedPreview none analysisW).detected_issues = [] ∧
      (mergedPreview none analysisW).suggestions = [] ∧
      (mergedPreview none analysisW).flagged_content = [] ∧
      (mergedPreview none analysisW).compliance_notes = none ∧
      (mergedPreview none analysisW).risk_level ≠ RiskLevel.DANGER) ∧
    (analysisW = none →
      (mergedPreview none analysisW).detailed_analysis =
        { risk_indicators := none } ∧
      (mergedPreview none analysisW).risk_level ≠ RiskLevel.WARNING) :=
  preview_merge_semantics verify0 req0 "Bearer valid-token" ident0
    none analysisW rfl (by decide) rfl (by decide)

/-- Claim C1 is false as stated: the analyze-route revision under
`frontend/src/app/api/analyze-message/route.ts` answers an authenticated
request whose upstream returns non-2xx with status 503 (an error object),
not with status 200 and a SAFE/0.5 fallback body. -/
theorem analyze_route_503_counterexample :
    (analyzeRoute verify0 req0 .httpErr).status = 503 ∧
    (analyzeRoute verify0 req0 .httpErr).status ≠ 200 := by
  constructor
  · rfl
  · decide

/-- Claim C1 (amended): in the fallback revision of the analyze route,
every authenticated request with a failed upstream (non-2xx or network
error) is answered 200 with the fixed fallback whose `risk_level` is
`SAFE` and whose `confidence` is 0.5; in the revision under
`frontend/src/app/api/analyze-message/route.ts`, the same requests are
answered 503 (non-2xx upstream) and 500 (network error) instead. -/
theorem analyze_upstream_failure (verify : String → Option Identity)
    (req : RelayRequest) (hdr : String) (ident : Identity)
    (hh : req.authHeader = some hdr)
    (hs : jsStartsWith hdr "Bearer " = true)
    (hv : verify (bearerToken hdr) = some ident)
    (hm : userIdMatches ident req.body_user_id = true) :
    ((analyzeRouteFallback verify req .httpErr).status = 200 ∧
      ∃ r, (analyzeRouteFallback verify req .httpErr).body = .payload r ∧
        r.risk_level = RiskLevel.SAFE ∧ r.confidence = 1/2) ∧
    ((analyzeRouteFallback verify req .netErr).status = 200 ∧
      ∃ r, (analyzeRouteFallback verify req .netErr).body = .payload r ∧
        r.risk_level = RiskLevel.SAFE ∧ r.confidence = 1/2) ∧
    (analyzeRoute verify req .httpErr).status = 503 ∧
    (analyzeRoute verify req .netErr).status = 500 := by
  have h1 : analyzeRouteFallback verify req .httpErr =
      { status := 200,
        body := .payload
          (analyzeFallback "分析サービスが利用できませんでした" "分析サービスエラー"),
        upstreamCalled := true } :=
    routeWithAuth_authorized verify req hdr ident hh hs hv hm _
  have h2 : analyzeRouteFallback verify req .netErr =
      { status := 200,
        body := .payload
          (analyzeFallback "バックエンドに接続できませんでした" "接続エラー"),
        upstreamCalled := true } :=
    routeWithAuth_authorized verify req hdr ident hh hs hv hm _
  have h3 : analyzeRoute verify req .httpErr =
      { status := 503, body := .err "Analysis service unavailable",
        upstreamCalled := true } :=
    routeWithAuth_authorized verify req hdr ident hh hs hv hm _
  have h4 : analyzeRoute verify req .netErr =
      { status := 500, body := .err "Internal server error",
        upstreamCalled := true } :=
    routeWithAuth_authorized verify req hdr ident hh hs hv hm _
  rw [h1, h2, h3, h4]
  exact
    ⟨⟨rfl, _, rfl, rfl, rfl⟩, ⟨rfl, _, rfl, rfl, rfl⟩, rfl, rfl⟩

/-- Witness for the amended C1 on a concrete authenticated request. -/
theorem analyze_upstream_failure_witness :
    ((analyzeRouteFallback verify0 req0 .httpErr).status = 200 ∧
      ∃ r, (analyzeRouteFallback verify0 req0 .httpErr).body = .payload r ∧
        r.risk_level = RiskLevel.SAFE ∧ r.confidence = 1/2) ∧
    ((analyzeRouteFallback verify0 req0 .netErr).status = 200 ∧
      ∃ r, (analyzeRouteFallback verify0 req0 .netErr).body = .payload r ∧
        r.risk_level = RiskLevel.SAFE ∧ r.confidence = 1/2) ∧
    (analyzeRoute verify0 req0 .httpErr).status = 503 ∧
    (analyzeRoute verify0 req0 .netErr).status = 500 :=
  analyze_upstream_failure verify0 req0 "Bearer valid-token" ident0
    rfl (by decide) rfl (by decide)

/-- Claim C8: for every message sent through the chat send path, the
`analysis` field is written at most once, and the message read back from
the store has `analysis` absent exactly when the analyze request failed or
was not run, and otherwise exactly equal to the single `AnalysisResult`
written for it. -/
theorem analysis_written_once (s : Store)
    (id content senderId roomId : String)
    (outcome : Option AnalysisResult) :
    analysisWrites (sendPathOps id content senderId roomId outcome) ≤ 1 ∧
    storeGet (applyOps s (sendPathOps id content senderId roomId outcome)) id
      = some { content := content, senderId := senderId, roomId := roomId,
               analysis := outcome } := by
  cases outcome with
  | none =>
    refine ⟨?_, ?_⟩
    · simp [sendPathOps, analysisWrites]
    · simp only [sendPathOps, applyOps, applyOp]
      exact storeGet_storeSet s id _
  | some a =>
    refine ⟨?_, ?_⟩
    · simp [sendPathOps, analysisWrites]
    · simp only [sendPathOps, applyOps, applyOp, updateMessageAnalysis,
        storeGet_storeSet]

/-- Claim C9 is defeated by the code itself: `generateDemoToken` calls
`btoa(JSON.stringify(tokenData))`, `JSON.stringify` emits the Japanese
`name` and `department` of every `DEMO_USERS` entry raw, and `btoa`
throws `InvalidCharacterError` on any character above U+00FF — so token
generation throws instead of producing a token for every one of the four
demo users, and the claimed round trip
`validateDemoToken (generateDemoToken u) = u` never occurs in the
program. -/
theorem generateDemoToken_throws_for_all_demo_users :
    generateDemoToken 0 demoUser1 = none ∧
    generateDemoToken 0 demoUser2 = none ∧
    generateDemoToken 0 demoUser3 = none ∧
    generateDemoToken 0 demoUser4 = none := by
  decide

end SafeComm
